import Mathlib

/-!
Declarations of android/native_activity.h (android-9, arch-arm).

The header holds no executable code: it is a list of C declarations.  The
embedding below records those declarations as data, in the order in which the
header writes them, together with the usual C rules for resolving typedef
names and for laying out a struct.  The statements that follow are about that
declaration list.
-/

namespace NativeActivity

/-- The C types that occur in the header. -/
inductive CType where
  | void : CType
  | int : CType
  | named : String → CType
  | struct : String → CType
  | ptr : CType → CType
  | func : CType → List (String × CType) → CType

open CType

/-- One member of a struct: its name and its declared type. -/
structure Field where
  name : String
  type : CType

/-- One top-level declaration of the header. -/
inductive Decl where
  | structFwd : String → Decl
  | typedef : String → CType → Decl
  | typedefStruct : String → List Field → String → Decl
  | symbol : String → CType → Decl

/-- The members of `struct android_activity_t`, lines 43 to 68. -/
def android_activity_t : List Field :=
  [ ⟨"callbacks", ptr (struct "android_activity_callbacks_t")⟩,
    ⟨"env", ptr (named "JNIEnv")⟩,
    ⟨"clazz", named "jobject"⟩,
    ⟨"instance", ptr void⟩ ]

/-- The parameter `android_activity_t* activity` that opens every signature. -/
def activityParam : String × CType :=
  ("activity", CType.ptr (CType.named "android_activity_t"))

/-- The parameter `android_surface_t* surface`. -/
def surfaceParam : String × CType :=
  ("surface", CType.ptr (CType.named "android_surface_t"))

/-- The parameter `input_queue_t* queue`. -/
def queueParam : String × CType :=
  ("queue", CType.ptr (CType.named "input_queue_t"))

/-- The members of `struct android_activity_callbacks_t`, lines 76 to 169. -/
def android_activity_callbacks_t : List Field :=
  [ ⟨"onStart", ptr (func void [activityParam])⟩,
    ⟨"onResume", ptr (func void [activityParam])⟩,
    ⟨"onSaveInstanceState",
      ptr (func (ptr void) [activityParam, ("outSize", ptr (named "size_t"))])⟩,
    ⟨"onPause", ptr (func void [activityParam])⟩,
    ⟨"onStop", ptr (func void [activityParam])⟩,
    ⟨"onDestroy", ptr (func void [activityParam])⟩,
    ⟨"onWindowFocusChanged", ptr (func void [activityParam, ("hasFocus", int)])⟩,
    ⟨"onSurfaceCreated", ptr (func void [activityParam, surfaceParam])⟩,
    ⟨"onSurfaceChanged",
      ptr (func void [activityParam, surfaceParam,
        ("format", int), ("width", int), ("height", int)])⟩,
    ⟨"onSurfaceDestroyed", ptr (func void [activityParam, surfaceParam])⟩,
    ⟨"onInputQueueCreated", ptr (func void [activityParam, queueParam])⟩,
    ⟨"onInputQueueDestroyed", ptr (func void [activityParam, queueParam])⟩,
    ⟨"onLowMemory", ptr (func void [activityParam])⟩ ]

/-- The function type `android_activity_create_t`, lines 177 and 178. -/
def android_activity_create_t : CType :=
  func void [activityParam, ("savedState", ptr void), ("savedStateSize", named "size_t")]

/-- The declarations of the header, top to bottom (lines 33 to 184). -/
def header : List Decl :=
  [ Decl.structFwd "android_surface_t",
    Decl.typedef "android_surface_t" (CType.struct "android_surface_t"),
    Decl.structFwd "android_activity_callbacks_t",
    Decl.typedefStruct "android_activity_t" android_activity_t "android_activity_t",
    Decl.typedefStruct "android_activity_callbacks_t" android_activity_callbacks_t
      "android_activity_callbacks_t",
    Decl.typedef "android_activity_create_t" android_activity_create_t,
    Decl.symbol "android_onCreateActivity" (CType.named "android_activity_create_t") ]

/-- The member list of the struct with the given tag, when the declarations define it. -/
def structFields : List Decl → String → Option (List Field)
  | [], _ => none
  | Decl.typedefStruct tag fs _ :: ds, t => if tag = t then some fs else structFields ds t
  | _ :: ds, t => structFields ds t

/-- The type a typedef name stands for, when the declarations introduce it. -/
def typedefOf : List Decl → String → Option CType
  | [], _ => none
  | Decl.typedef n ty :: ds, t => if n = t then some ty else typedefOf ds t
  | Decl.typedefStruct tag _ n :: ds, t =>
      if n = t then some (CType.struct tag) else typedefOf ds t
  | _ :: ds, t => typedefOf ds t

/-- The names the header gives to the members of a struct, in declaration order. -/
def fieldNames (fs : List Field) : List String :=
  fs.map Field.name

/-- The typedef names whose type is a function type (not a pointer to one). -/
def functionTypedefs : List Decl → List (String × CType)
  | [] => []
  | Decl.typedef n (CType.func r ps) :: ds => (n, CType.func r ps) :: functionTypedefs ds
  | _ :: ds => functionTypedefs ds

/-- The identifiers with linkage (functions and objects) that the declarations
introduce.  Struct tags, struct members and typedef names are not symbols. -/
def symbols : List Decl → List (String × CType)
  | [] => []
  | Decl.symbol n ty :: ds => (n, ty) :: symbols ds
  | _ :: ds => symbols ds

/-- Whether a type is a pointer to a function. -/
def isFuncPtr : CType → Bool
  | CType.ptr (CType.func _ _) => true
  | _ => false

/-- The return type and parameter list of a function type or of a pointer to one. -/
def signature : CType → Option (CType × List (String × CType))
  | CType.func r ps => some (r, ps)
  | CType.ptr (CType.func r ps) => some (r, ps)
  | _ => none

/-- Whether the first parameter of a signature has type `android_activity_t*`. -/
def firstParamIsActivity (t : CType) : Bool :=
  match signature t with
  | some (_, (_, CType.ptr (CType.named n)) :: _) => n == "android_activity_t"
  | _ => false

/-- Whether a signature returns `void`. -/
def returnsVoid (t : CType) : Bool :=
  match signature t with
  | some (CType.void, _) => true
  | _ => false

/-- Whether a signature returns something other than `void`. -/
def returnsValue (t : CType) : Bool :=
  match signature t with
  | some (CType.void, _) => false
  | some _ => true
  | none => false

/-- The callback names as the specification enumerates them, the slash
abbreviations `onSurfaceCreated/Changed/Destroyed` and
`onInputQueueCreated/Destroyed` written out. -/
def specCallbackNames : List String :=
  ["onStart", "onResume", "onSaveInstanceState", "onPause", "onStop", "onDestroy",
    "onWindowFocusChanged"]
    ++ ["Created", "Changed", "Destroyed"].map (fun s => "onSurface" ++ s)
    ++ ["Created", "Destroyed"].map (fun s => "onInputQueue" ++ s)
    ++ ["onLowMemory"]

/-! ## Struct layout -/

/-- The sizes a compilation target fixes: bytes of a pointer (data or function)
and bytes of an `int`; each is also the alignment of that type. -/
structure Target where
  ptrBytes : Nat
  intBytes : Nat

/-- The target of this copy of the header (`arch-arm`): 32-bit pointers and ints. -/
def arm : Target := ⟨4, 4⟩

/-- The least multiple of `a` that is not below `off`. -/
def alignUp (off a : Nat) : Nat :=
  (off + a - 1) / a * a

/-- The result of laying out a struct: the byte offset of every member, the
size of the struct and its alignment. -/
structure Layout where
  offsets : List (String × Nat)
  size : Nat
  align : Nat

/-- Places the members one after another: each goes to the next offset that is
a multiple of its alignment.  Returns the offsets, the end of the last member and
the largest alignment seen. -/
def placeFields (sa : CType → Option (Nat × Nat)) :
    List Field → Nat → Nat → Option (List (String × Nat) × Nat × Nat)
  | [], off, al => some ([], off, al)
  | f :: fs, off, al =>
    match sa f.type with
    | none => none
    | some (s, a) =>
      match placeFields sa fs (alignUp off a + s) (max al a) with
      | none => none
      | some (rest, e, al2) => some ((f.name, alignUp off a) :: rest, e, al2)

/-- The layout of a member list: members placed from offset 0, the size rounded
up to the alignment of the struct. -/
def layoutFields (sa : CType → Option (Nat × Nat)) (fs : List Field) : Option Layout :=
  match placeFields sa fs 0 1 with
  | none => none
  | some (offs, e, al) => some ⟨offs, alignUp e al, al⟩

/-- The type a typedef name stands for: the header's own typedefs first, then
those of the headers it includes (`ext`). -/
def resolveName (ds : List Decl) (ext : String → Option CType) (n : String) : Option CType :=
  match typedefOf ds n with
  | some t => some t
  | none => ext n

/-- Size and alignment of a type.  `void`, function types and undefined names
have none.  The fuel bounds the chain of typedef and struct lookups. -/
def sizeAlign (T : Target) (ds : List Decl) (ext : String → Option CType) :
    Nat → CType → Option (Nat × Nat)
  | 0, _ => none
  | _ + 1, CType.void => none
  | _ + 1, CType.func _ _ => none
  | _ + 1, CType.int => some (T.intBytes, T.intBytes)
  | _ + 1, CType.ptr _ => some (T.ptrBytes, T.ptrBytes)
  | k + 1, CType.named n =>
    match resolveName ds ext n with
    | none => none
    | some t => sizeAlign T ds ext k t
  | k + 1, CType.struct tag =>
    match structFields ds tag with
    | none => none
    | some fs =>
      match layoutFields (sizeAlign T ds ext k) fs with
      | none => none
      | some L => some (L.size, L.align)

/-- The layout of the struct with the given tag in the header. -/
def layoutOf (T : Target) (ext : String → Option CType) (fuel : Nat) (tag : String) :
    Option Layout :=
  match structFields header tag with
  | none => none
  | some fs => layoutFields (sizeAlign T header ext fuel) fs

/-- The offset recorded for a member name. -/
def offsetOf : List (String × Nat) → String → Option Nat
  | [], _ => none
  | (n, o) :: rest, m => if n = m then some o else offsetOf rest m

/-- Modelled from the spec: `jni.h` is not among the sources.  The spec calls
`clazz` a Java object reference; here `jobject` is an untyped pointer, and no
other name of `jni.h` is given a meaning. -/
def jniTypedefs (n : String) : Option CType :=
  if n = "jobject" then some (CType.ptr CType.void) else none

/-! ## Layout lemmas -/

theorem alignUp_mul (k P : Nat) (hP : 0 < P) : alignUp (k * P) P = k * P := by
  unfold alignUp
  have h1 : k * P + P - 1 = (P - 1) + P * k := by
    have : k * P = P * k := Nat.mul_comm k P
    omega
  rw [h1, Nat.add_mul_div_left _ _ hP, Nat.div_eq_of_lt (by omega)]
  simp

theorem placeFields_uniform (sa : CType → Option (Nat × Nat)) (P : Nat) (hP : 0 < P)
    (fs : List Field) (hsa : ∀ f ∈ fs, sa f.type = some (P, P)) (k : Nat) :
    placeFields sa fs (k * P) P
      = some ((fs.enumFrom k).map (fun p => (p.2.name, p.1 * P)), (k + fs.length) * P, P) := by
  induction fs generalizing k with
  | nil => simp [placeFields]
  | cons f fs ih =>
    have hf : sa f.type = some (P, P) := hsa f (List.mem_cons_self f fs)
    have hrest : ∀ g ∈ fs, sa g.type = some (P, P) :=
      fun g hg => hsa g (List.mem_cons_of_mem f hg)
    have hnext : k * P + P = (k + 1) * P := by rw [Nat.add_mul, Nat.one_mul]
    have hlen : k + 1 + fs.length = k + (fs.length + 1) := by omega
    simp only [placeFields, hf, alignUp_mul k P hP, Nat.max_self, hnext, ih hrest (k + 1),
      List.enumFrom_cons, List.map_cons, List.length_cons, hlen]

theorem layoutFields_uniform (sa : CType → Option (Nat × Nat)) (P : Nat) (hP : 0 < P)
    (f : Field) (fs : List Field) (hsa : ∀ g ∈ f :: fs, sa g.type = some (P, P)) :
    layoutFields sa (f :: fs)
      = some ⟨((f :: fs).enum).map (fun p => (p.2.name, p.1 * P)),
          (f :: fs).length * P, P⟩ := by
  have hf : sa f.type = some (P, P) := hsa f (List.mem_cons_self f fs)
  have hrest : ∀ g ∈ fs, sa g.type = some (P, P) :=
    fun g hg => hsa g (List.mem_cons_of_mem f hg)
  have h0 : alignUp 0 P = 0 := by simpa using alignUp_mul 0 P hP
  have hmax : max 1 P = P := Nat.max_eq_right hP
  have hstart : 0 + P = 1 * P := by simp
  have hlen : (1 + fs.length) * P = (fs.length + 1) * P := by rw [Nat.add_comm]
  have hend : alignUp ((fs.length + 1) * P) P = (fs.length + 1) * P := alignUp_mul _ P hP
  simp only [layoutFields, placeFields, hf, h0, hmax, hstart, placeFields_uniform sa P hP fs hrest 1,
    hlen, hend, List.enum, List.enumFrom_cons, List.map_cons, List.length_cons, Nat.zero_mul,
    Nat.zero_add]

theorem sizeAlign_ptr (T : Target) (ds : List Decl) (ext : String → Option CType) (k : Nat)
    (t : CType) : sizeAlign T ds ext (k + 1) (CType.ptr t) = some (T.ptrBytes, T.ptrBytes) := by
  simp [sizeAlign]

theorem sizeAlign_jobject (T : Target) (ext : String → Option CType) (k : Nat) (t : CType)
    (hj : ext "jobject" = some (CType.ptr t)) :
    sizeAlign T header ext (k + 2) (CType.named "jobject") = some (T.ptrBytes, T.ptrBytes) := by
  have hr : resolveName header ext "jobject" = some (CType.ptr t) := by
    have hn : typedefOf header "jobject" = none := rfl
    simp [resolveName, hn, hj]
  simp [sizeAlign, hr]

theorem activity_fields_pointer_sized (T : Target) (ext : String → Option CType) (k : Nat)
    (t : CType) (hj : ext "jobject" = some (CType.ptr t)) :
    ∀ g ∈ android_activity_t,
      sizeAlign T header ext (k + 2) g.type = some (T.ptrBytes, T.ptrBytes) := by
  intro g hg
  simp only [android_activity_t, List.mem_cons, List.mem_singleton, List.not_mem_nil,
    or_false] at hg
  rcases hg with rfl | rfl | rfl | rfl
  · exact sizeAlign_ptr T header ext (k + 1) _
  · exact sizeAlign_ptr T header ext (k + 1) _
  · exact sizeAlign_jobject T ext k t hj
  · exact sizeAlign_ptr T header ext (k + 1) _

theorem callback_fields_pointer_sized (T : Target) (ext : String → Option CType) (k : Nat) :
    ∀ g ∈ android_activity_callbacks_t,
      sizeAlign T header ext (k + 1) g.type = some (T.ptrBytes, T.ptrBytes) := by
  intro g hg
  simp only [android_activity_callbacks_t, List.mem_cons, List.mem_singleton,
    List.not_mem_nil, or_false] at hg
  rcases hg with rfl | rfl | rfl | rfl | rfl | rfl | rfl | rfl | rfl | rfl | rfl | rfl | rfl <;>
    exact sizeAlign_ptr T header ext k _

/-! ## The declarations -/

/-- C1: `struct android_activity_t` has exactly four members, in this order:
`callbacks` (pointer to `struct android_activity_callbacks_t`), `env` (`JNIEnv*`),
`clazz` (`jobject`), `instance` (`void*`); nothing comes before, between or after
them, and the typedef name `android_activity_t` stands for that struct. -/
theorem android_activity_t_members :
    structFields header "android_activity_t"
        = some [ ⟨"callbacks", ptr (struct "android_activity_callbacks_t")⟩,
                 ⟨"env", ptr (named "JNIEnv")⟩,
                 ⟨"clazz", named "jobject"⟩,
                 ⟨"instance", ptr void⟩ ]
      ∧ (structFields header "android_activity_t").map List.length = some 4
      ∧ (structFields header "android_activity_t").map fieldNames
          = some ["callbacks", "env", "clazz", "instance"]
      ∧ typedefOf header "android_activity_t" = some (struct "android_activity_t") :=
  ⟨rfl, rfl, rfl, rfl⟩

/-- C2: `struct android_activity_callbacks_t` has exactly thirteen members, every
one a pointer to a function, named in this order: onStart, onResume,
onSaveInstanceState, onPause, onStop, onDestroy, onWindowFocusChanged,
onSurfaceCreated, onSurfaceChanged, onSurfaceDestroyed, onInputQueueCreated,
onInputQueueDestroyed, onLowMemory; the names are pairwise distinct and are the
list the specification enumerates. -/
theorem android_activity_callbacks_t_members :
    ∃ fs, structFields header "android_activity_callbacks_t" = some fs
      ∧ fs.length = 13
      ∧ (∀ f ∈ fs, isFuncPtr f.type = true)
      ∧ fieldNames fs
          = ["onStart", "onResume", "onSaveInstanceState", "onPause", "onStop", "onDestroy",
             "onWindowFocusChanged", "onSurfaceCreated", "onSurfaceChanged",
             "onSurfaceDestroyed", "onInputQueueCreated", "onInputQueueDestroyed",
             "onLowMemory"]
      ∧ (fieldNames fs).Nodup
      ∧ fieldNames fs = specCallbackNames :=
  ⟨android_activity_callbacks_t, rfl, rfl, by decide, rfl, by decide, by decide⟩

/-- C3: the header has exactly one typedef of function type,
`android_activity_create_t`, which takes `(android_activity_t* activity,
void* savedState, size_t savedStateSize)` and returns `void`; it declares exactly
one symbol, `android_onCreateActivity`, of type `android_activity_create_t`, and
no other function or object. -/
theorem header_factory_type_and_symbol :
    functionTypedefs header
        = [("android_activity_create_t",
            func void [("activity", ptr (named "android_activity_t")),
                       ("savedState", ptr void),
                       ("savedStateSize", named "size_t")])]
      ∧ symbols header = [("android_onCreateActivity", named "android_activity_create_t")]
      ∧ typedefOf header "android_activity_create_t"
          = some (func void [("activity", ptr (named "android_activity_t")),
                             ("savedState", ptr void),
                             ("savedStateSize", named "size_t")]) :=
  ⟨rfl, rfl, rfl⟩

/-- C8: each of the thirteen callbacks, and the factory type
`android_activity_create_t`, takes `android_activity_t*` as its first parameter;
the only callback that returns a value is `onSaveInstanceState`, which returns
`void*` and has the one further parameter `size_t* outSize`; the other twelve
callbacks and the factory type return `void`. -/
theorem callback_signatures :
    ∃ fs create, structFields header "android_activity_callbacks_t" = some fs
      ∧ typedefOf header "android_activity_create_t" = some create
      ∧ fs.length = 13
      ∧ (∀ f ∈ fs, firstParamIsActivity f.type = true)
      ∧ firstParamIsActivity create = true
      ∧ fs.filter (fun f => returnsValue f.type)
          = [ ⟨"onSaveInstanceState",
                ptr (func (ptr void) [("activity", ptr (named "android_activity_t")),
                                      ("outSize", ptr (named "size_t"))])⟩ ]
      ∧ (fs.filter (fun f => returnsVoid f.type)).length = 12
      ∧ (∀ f ∈ fs, f.name ≠ "onSaveInstanceState" → returnsVoid f.type = true)
      ∧ returnsVoid create = true :=
  ⟨android_activity_callbacks_t, android_activity_create_t, rfl, rfl, rfl, by decide, rfl, rfl,
    rfl, by decide, rfl⟩

/-! ## The layout -/

/-- C4: on a target whose pointers (to data and to functions) have size and
alignment `P > 0`, once `jobject` is a pointer typedef, no padding is inserted:
member `i` of `android_activity_t` lies at offset `i * P` and the struct has size
`4 * P`; member `k` of `android_activity_callbacks_t` lies at offset `k * P` and
the struct has size `13 * P`.  With `P = 4` (arm) the sizes are 16 and 52 bytes
and `onLowMemory` lies at offset 48.  Any fuel from 2 on yields the layout. -/
theorem struct_layout_pointer_sized (T : Target) (ext : String → Option CType) (fuel : Nat)
    (t : CType) (hP : 0 < T.ptrBytes) (hj : ext "jobject" = some (ptr t)) (hfuel : 2 ≤ fuel) :
    layoutOf T ext fuel "android_activity_t"
        = some ⟨android_activity_t.enum.map (fun p => (p.2.name, p.1 * T.ptrBytes)),
            4 * T.ptrBytes, T.ptrBytes⟩
      ∧ layoutOf T ext fuel "android_activity_callbacks_t"
        = some ⟨android_activity_callbacks_t.enum.map (fun p => (p.2.name, p.1 * T.ptrBytes)),
            13 * T.ptrBytes, T.ptrBytes⟩
      ∧ (T.ptrBytes = 4 →
          (layoutOf T ext fuel "android_activity_t").map Layout.size = some 16
          ∧ (layoutOf T ext fuel "android_activity_callbacks_t").map Layout.size = some 52
          ∧ (layoutOf T ext fuel "android_activity_callbacks_t").bind
              (fun L => offsetOf L.offsets "onLowMemory") = some 48) := by
  obtain ⟨k, rfl⟩ : ∃ k, fuel = k + 2 := ⟨fuel - 2, by omega⟩
  have hA : layoutOf T ext (k + 2) "android_activity_t"
      = some ⟨android_activity_t.enum.map (fun p => (p.2.name, p.1 * T.ptrBytes)),
          4 * T.ptrBytes, T.ptrBytes⟩ := by
    have hs : structFields header "android_activity_t" = some android_activity_t := rfl
    simp only [layoutOf, hs]
    exact layoutFields_uniform _ T.ptrBytes hP _ _
      (activity_fields_pointer_sized T ext k t hj)
  have hC : layoutOf T ext (k + 2) "android_activity_callbacks_t"
      = some ⟨android_activity_callbacks_t.enum.map (fun p => (p.2.name, p.1 * T.ptrBytes)),
          13 * T.ptrBytes, T.ptrBytes⟩ := by
    have hs : structFields header "android_activity_callbacks_t"
        = some android_activity_callbacks_t := rfl
    simp only [layoutOf, hs]
    exact layoutFields_uniform _ T.ptrBytes hP _ _
      (callback_fields_pointer_sized T ext (k + 1))
  refine ⟨hA, hC, ?_⟩
  intro h4
  rw [hA, hC, h4]
  exact ⟨rfl, rfl, rfl⟩

/-- Instance of C4 at the arm target with the JNI typedefs and fuel 2: the
offsets are 0, 4, 8, 12 with size 16, and 0, 4, ..., 48 with size 52. -/
theorem struct_layout_pointer_sized_arm :
    0 < arm.ptrBytes ∧ jniTypedefs "jobject" = some (ptr void) ∧ 2 ≤ 2
      ∧ layoutOf arm jniTypedefs 2 "android_activity_t"
          = some ⟨[("callbacks", 0), ("env", 4), ("clazz", 8), ("instance", 12)], 16, 4⟩
      ∧ (layoutOf arm jniTypedefs 2 "android_activity_callbacks_t").map Layout.size = some 52
      ∧ (layoutOf arm jniTypedefs 2 "android_activity_callbacks_t").bind
          (fun L => offsetOf L.offsets "onLowMemory") = some 48 :=
  ⟨by decide, rfl, by decide,
    (struct_layout_pointer_sized arm jniTypedefs 2 void (by decide) rfl (by decide)).1,
    ((struct_layout_pointer_sized arm jniTypedefs 2 void (by decide) rfl (by decide)).2.2 rfl).2.1,
    ((struct_layout_pointer_sized arm jniTypedefs 2 void (by decide) rfl (by decide)).2.2 rfl).2.2⟩

end NativeActivity
